import Mathlib

/-!
Shallow embedding of `pandas/util/_test_decorators.py` (test-skip decorators):
the capability probe `safe_import`, the `distutils.version.LooseVersion`
comparison it relies on, the module-load-time skip predicates
(`_skip_if_no_mpl`, `_skip_if_mpl_1_5`, `_skip_if_has_locale`,
`_skip_if_not_us_locale`) and the decorator factory `skip_if_no`.

The Python runtime environment is modelled by `Env`: which module names are
importable, the `__version__` attribute of each entry of `sys.modules`, and
the process locale language.  Exceptions are modelled with `Except PyErr`.
Python 3 semantics are used throughout (the file imports the `PY3` flag from
`pandas.compat`): comparing an `int` with a `str` raises `TypeError`, and
two-argument `getattr` raises `AttributeError` when the attribute is missing.
-/

/-- Python exceptions that can arise in this module. -/
inductive PyErr where
  | importError
  | attributeError
  | typeError
  | indexError
deriving DecidableEq, Repr

/-! ## `distutils.version.LooseVersion`

`LooseVersion.parse` splits the version string with the regex
`(\d+ | [a-z]+ | \.)`, keeps every non-empty piece other than `"."`
(unmatched separator text between matches is kept too), and converts the
pieces that are decimal numerals to `int`.  Comparison is Python list
comparison of the component lists: the first non-equal pair of components
decides, a strict prefix is smaller; comparing an `int` component with a
`str` component raises `TypeError` under Python 3. -/

/-- A parsed version component: an `int` or a leftover string (kept as its
character list so the lexicographic order is explicit). -/
inductive VComp where
  | num (n : Nat)
  | str (s : List Char)
deriving DecidableEq, Repr

/-- Character classes of the `LooseVersion` tokenizer: a run of ASCII digits,
a run of ASCII lowercase letters, a dot (dropped), or a run of any other
characters (unmatched separator text, kept as a string component). -/
inductive ChClass where
  | digit
  | lower
  | dot
  | other
deriving DecidableEq, Repr

def chClass (c : Char) : ChClass :=
  if c.isDigit then .digit
  else if c = '.' then .dot
  else if 'a' ≤ c ∧ c ≤ 'z' then .lower
  else .other

/-- Group the characters of the version string into maximal runs of one
character class (runs are accumulated in reverse and reversed at the end). -/
def pushRun (acc : List (ChClass × List Char)) (c : Char) : List (ChClass × List Char) :=
  match acc with
  | (cls, run) :: rest =>
      if cls = chClass c then (cls, run ++ [c]) :: rest
      else (chClass c, [c]) :: (cls, run) :: rest
  | [] => [(chClass c, [c])]

def runsOf (s : String) : List (ChClass × List Char) :=
  (s.data.foldl pushRun []).reverse

/-- Decimal value of a digit run (Python `int` of the piece). -/
def digitsVal (cs : List Char) : Nat :=
  cs.foldl (fun a c => a * 10 + (c.toNat - 48)) 0

/-- `LooseVersion(vstring).version`: the component list. Dots are dropped,
digit runs become `int`s, every other run stays a string component
(`int(piece)` fails on it). Parsing never raises. -/
def looseParse (s : String) : List VComp :=
  (runsOf s).filterMap fun p =>
    match p.1 with
    | .dot => none
    | .digit => some (.num (digitsVal p.2))
    | .lower => some (.str p.2)
    | .other => some (.str p.2)

/-- Lexicographic order on Python strings (by code point). -/
def strCmp : List Char → List Char → Ordering
  | [], [] => .eq
  | [], _ :: _ => .lt
  | _ :: _, [] => .gt
  | a :: as, b :: bs =>
      if a < b then .lt else if b < a then .gt else strCmp as bs

/-- Ordering of two components: numbers numerically, strings
lexicographically; an `int` against a `str` raises `TypeError` (Python 3). -/
def compCmp : VComp → VComp → Except PyErr Ordering
  | .num a, .num b => .ok (compare a b)
  | .str a, .str b => .ok (strCmp a b)
  | .num _, .str _ => .error .typeError
  | .str _, .num _ => .error .typeError

/-- Python list comparison as used by `LooseVersion._cmp`: walk the lists,
skip `==` pairs (cross-type `==` is `False`, never raises), let the first
non-equal pair decide via `<`/`>` (which raises on mixed types), and compare
lengths when one list is a prefix of the other. -/
def listCmp : List VComp → List VComp → Except PyErr Ordering
  | [], [] => .ok .eq
  | [], _ :: _ => .ok .lt
  | _ :: _, [] => .ok .gt
  | a :: as, b :: bs => if a = b then listCmp as bs else compCmp a b

/-- `LooseVersion(v) OP LooseVersion(m)`: parse both strings and compare. -/
def looseCmp (v m : String) : Except PyErr Ordering :=
  listCmp (looseParse v) (looseParse m)

/-! ## The runtime environment and `safe_import` -/

/-- The ambient Python environment the module reads:
`importable name` — whether `__import__(name)` succeeds (otherwise it raises
`ImportError`, which `safe_import` catches);
`version_attr name` — the `__version__` attribute of `sys.modules[name]`
(`none` when the module object has no such attribute);
`locale_lang` — the language part of `locale.getlocale()` (`none` = Python
`None`). -/
structure Env where
  importable : String → Bool
  version_attr : String → Option String
  locale_lang : Option String

/-- `__import__("a.b.c")` binds `sys.modules` entries for the whole chain but
returns the TOP-LEVEL package object `a`; the handle is identified here by
that module's name. -/
def topName (s : String) : String :=
  String.mk (s.data.takeWhile fun c => c ≠ '.')

/-- What `safe_import` returns: a module handle (truthy) or Python `False`. -/
inductive SIResult where
  | mod (name : String)
  | false_
deriving DecidableEq, Repr

/-- Python truthiness of the returned value: module objects are truthy. -/
def truthySI : SIResult → Bool
  | .mod _ => true
  | .false_ => false

/-- `safe_import(mod_name, min_version=None)` of `_test_decorators.py`:
try `__import__(mod_name)`, returning `False` on `ImportError`; with no
truthy `min_version` return the module; otherwise read
`getattr(sys.modules[mod_name], '__version__')` — two-argument `getattr`, so
a missing attribute raises `AttributeError` — and, when that version string
is truthy, return the module if `LooseVersion(version) >=
LooseVersion(min_version)` (a comparison that can raise `TypeError`), else
fall through to `return False`. -/
def safe_import (env : Env) (mod_name : String) (min_version : Option String) :
    Except PyErr SIResult :=
  if env.importable mod_name then
    match min_version with
    | none => .ok (.mod (topName mod_name))
    | some m =>
      if m.isEmpty then .ok (.mod (topName mod_name))
      else
        match env.version_attr mod_name with
        | none => .error .attributeError
        | some version =>
          if version.isEmpty then .ok .false_
          else
            match looseCmp version m with
            | .error e => .error e
            | .ok o =>
              if o = .lt then .ok .false_ else .ok (.mod (topName mod_name))
  else .ok .false_

/-! ## Module-load-time skip predicates

The matplotlib predicates call `mod.use("Agg", warn=False)` on the returned
module handle; the rendering-backend configuration is modelled as explicit
state (`backend`), together with a counter of how many times `use` was
invoked, so that the "one-time side effect" claims are observable. -/

/-- Matplotlib global configuration state. -/
structure MplState where
  backend : String
  useCalls : Nat
deriving DecidableEq, Repr

/-- `mod.use(b, warn=False)`: set the backend (again, if already set). -/
def mplUse (st : MplState) (b : String) : MplState :=
  { backend := b, useCalls := st.useCalls + 1 }

/-- `_skip_if_no_mpl()`: probe matplotlib; when truthy, switch the backend to
"Agg" and fall off the end (return `None`); else `return True`. -/
def _skip_if_no_mpl (env : Env) (st : MplState) :
    Except PyErr (Option Bool × MplState) :=
  match safe_import env "matplotlib" none with
  | .error e => .error e
  | .ok r =>
    if truthySI r then .ok (none, mplUse st "Agg")
    else .ok (some true, st)

/-- `_skip_if_mpl_1_5()`: probe matplotlib; when truthy read
`mod.__version__` (attribute access, raising if missing), `return True` when
`LooseVersion(v) > LooseVersion('1.4.3')` or `str(v)[0] == '0'` (short-
circuit `or`; the index raises on an empty version), else switch the backend
to "Agg"; when the probe is falsy fall off the end (return `None`). -/
def _skip_if_mpl_1_5 (env : Env) (st : MplState) :
    Except PyErr (Option Bool × MplState) :=
  match safe_import env "matplotlib" none with
  | .error e => .error e
  | .ok r =>
    if truthySI r then
      match env.version_attr "matplotlib" with
      | none => .error .attributeError
      | some v =>
        match looseCmp v "1.4.3" with
        | .error e => .error e
        | .ok o =>
          if o = .gt then .ok (some true, st)
          else
            match v.data with
            | [] => .error .indexError
            | c :: _ =>
              if c = '0' then .ok (some true, st)
              else .ok (none, mplUse st "Agg")
    else .ok (none, st)

/-- `_skip_if_has_locale()`: `lang, _ = locale.getlocale()`; `return True`
when `lang is not None`, else fall off the end (return `None`). -/
def _skip_if_has_locale (env : Env) : Option Bool :=
  match env.locale_lang with
  | some _ => some true
  | none => none

/-- `_skip_if_not_us_locale()`: `return True` when `lang != 'en_US'`
(`None != 'en_US'` is `True`), else fall off the end (return `None`). -/
def _skip_if_not_us_locale (env : Env) : Option Bool :=
  if env.locale_lang ≠ some "en_US" then some true else none

/-! ## `skip_if_no`: the decorator factory -/

/-- An ASCII single-quote character, spelled by code point. -/
def squote : String := String.mk [Char.ofNat 39]

/-- The reason string built inside `decorated_func`:
`"Could not import '{package}'"`, extended with
`" satisfying a min_version of {min_version}"` when `min_version` is
truthy. -/
def skip_if_no_msg (package : String) (min_version : Option String) : String :=
  let msg := "Could not import " ++ squote ++ package ++ squote
  match min_version with
  | some m =>
      if m.isEmpty then msg
      else msg ++ " satisfying a min_version of " ++ m
  | none => msg

/-- A `pytest.mark.skipif(condition, reason=...)` mark. -/
structure SkipMark where
  condition : Bool
  reason : String
deriving DecidableEq, Repr

/-- A test function or class with a skip mark attached. -/
structure MarkedFunc (α : Type) where
  func : α
  mark : SkipMark

/-- `skip_if_no(package, min_version)(func)`: build the reason string,
evaluate `safe_import(package, min_version=min_version)` right now (at
decoration time) — any exception it raises propagates — and wrap `func`
with `skipif(not safe_import(...), reason=msg)`, leaving `func` itself
unchanged. -/
def decorated_func {α : Type} (env : Env) (package : String)
    (min_version : Option String) (func : α) : Except PyErr (MarkedFunc α) :=
  match safe_import env package min_version with
  | .error e => .error e
  | .ok r => .ok ⟨func, ⟨!truthySI r, skip_if_no_msg package min_version⟩⟩

/-- `skip_if_no(package, min_version)` returns the decorator itself. -/
def skip_if_no {α : Type} (env : Env) (package : String)
    (min_version : Option String) : α → Except PyErr (MarkedFunc α) :=
  decorated_func env package min_version

/-! ## Auxiliary definitions used by the statements -/

/-- Every component of a parsed version is numeric (the shape produced by
well-formed dot-separated numeric version strings). -/
def allNum (l : List VComp) : Bool :=
  l.all fun c => match c with | .num _ => true | .str _ => false

/-- An environment where only module "m" is importable and its `sys.modules`
entry has no `__version__` attribute. -/
def envC1 : Env := ⟨fun s => s == "m", fun _ => none, none⟩

/-- Only "m" importable, with the non-version string "a" as `__version__`. -/
def envC2 : Env := ⟨fun s => s == "m", fun _ => some "a", none⟩

/-- Only "m" importable, `__version__ = "1.2.0"`. -/
def envC2w : Env := ⟨fun s => s == "m", fun _ => some "1.2.0", none⟩

/-- Only "matplotlib" importable, `__version__ = "1.4.0"`. -/
def envMpl : Env := ⟨fun s => s == "matplotlib", fun _ => some "1.4.0", none⟩

/-- Only "m" importable, with an empty `__version__` string. -/
def envC4 : Env := ⟨fun s => s == "m", fun _ => some "", none⟩

/-- Only "m" importable, `__version__ = "1.2.0"`. -/
def envC4w : Env := ⟨fun s => s == "m", fun _ => some "1.2.0", none⟩

/-- Only "numpy" importable, no version attribute anywhere. -/
def envC5 : Env := ⟨fun s => s == "numpy", fun _ => none, none⟩

/-- Everything importable with `__version__ = "1.2.0"`. -/
def envC7 : Env := ⟨fun _ => true, fun _ => some "1.2.0", none⟩

/-- Only "numpy" importable. -/
def envC8 : Env := ⟨fun s => s == "numpy", fun _ => none, none⟩

/-- Only the dotted submodule "scipy.stats" importable; its `sys.modules`
entry carries `__version__ = "1.0.0"`, every other entry (including the
top-level "scipy") has no version attribute. -/
def envC9 : Env :=
  ⟨fun s => s == "scipy.stats",
   fun s => if s == "scipy.stats" then some "1.0.0" else none, none⟩

/-! ## Helper lemmas -/

/-- Comparing two all-numeric component lists never raises. -/
theorem listCmp_allNum_ok (as bs : List VComp)
    (ha : allNum as = true) (hb : allNum bs = true) :
    ∃ o, listCmp as bs = Except.ok o := by
  induction as generalizing bs with
  | nil =>
    cases bs with
    | nil => exact ⟨.eq, rfl⟩
    | cons b bs => exact ⟨.lt, rfl⟩
  | cons a as ih =>
    cases bs with
    | nil => exact ⟨.gt, rfl⟩
    | cons b bs =>
      simp only [allNum, List.all_cons, Bool.and_eq_true] at ha hb
      by_cases hab : a = b
      · simpa [listCmp, hab] using ih bs ha.2 hb.2
      · cases a with
        | str s => simp at ha
        | num n =>
          cases b with
          | str s => simp at hb
          | num m => exact ⟨compare n m, by simp [listCmp, hab, compCmp]⟩

/-- On a dotted module name, the top-level package name differs from the
full dotted name. -/
theorem topName_ne_of_dot (name : String) (hdot : ('.') ∈ name.data) :
    topName name ≠ name := by
  intro h
  have hd : (name.data.takeWhile fun c => decide (c ≠ '.')) = name.data := by
    simpa [topName] using congrArg String.data h
  have hmem : ('.') ∈ name.data.takeWhile fun c => decide (c ≠ '.') := by
    rw [hd]; exact hdot
  have := List.mem_takeWhile_imp hmem
  simp at this

/-! ## Claim theorems -/

/-- Claim C1 (code bug): the claim says an importable module with no version
attribute yields `False` (skip) and that no probe invocation ever raises.
The code instead uses two-argument `getattr`, which raises `AttributeError`
when `sys.modules[mod_name]` has no `__version__`: the probe of the
importable module "m" with `min_version="1.0.0"` raises rather than
returning `False`, contradicting the function's own docstring ("The imported
module if successful, or False"). -/
theorem c1_probe_raises_on_missing_version_attr :
    safe_import envC1 "m" (some "1.0.0") = Except.error PyErr.attributeError := by
  rfl

/-- Claim C2 counterexample: with installed `__version__ = "a"` and
`min_version = "1"`, `LooseVersion("a") >= LooseVersion("1")` compares the
string component with the numeric one and raises `TypeError` (Python 3),
which propagates out of the probe — the comparison does have a crash path. -/
theorem c2_cex_comparison_raises :
    safe_import envC2 "m" (some "1") = Except.error PyErr.typeError := by
  rfl

/-- Claim C2 (amended): the loose comparison does not raise as long as the
components actually compared are of matching kinds; in particular, for any
two version strings that parse to all-numeric component lists (every
well-formed dot-separated numeric version), the comparison returns a result
and the probe of a module carrying such a version terminates without an
exception. Comparing a numeric component against an alphabetic one raises
`TypeError` under Python 3, which propagates out of the probe. -/
theorem c2_numeric_versions_compare_without_raising
    (env : Env) (name v m : String)
    (h1 : env.importable name = true)
    (h2 : env.version_attr name = some v)
    (hv : allNum (looseParse v) = true)
    (hm : allNum (looseParse m) = true) :
    (∃ o, looseCmp v m = Except.ok o) ∧
    (∃ r, safe_import env name (some m) = Except.ok r) := by
  obtain ⟨o, ho⟩ := listCmp_allNum_ok _ _ hv hm
  refine ⟨⟨o, ho⟩, ?_⟩
  by_cases hme : m.isEmpty
  · exact ⟨SIResult.mod (topName name), by simp [safe_import, h1, h2, hme]⟩
  · by_cases hve : v.isEmpty
    · exact ⟨SIResult.false_, by simp [safe_import, h1, h2, hme, hve]⟩
    · by_cases hlt : o = Ordering.lt
      · exact ⟨SIResult.false_,
          by simp [safe_import, h1, h2, hme, hve, looseCmp, ho, hlt]⟩
      · exact ⟨SIResult.mod (topName name),
          by simp [safe_import, h1, h2, hme, hve, looseCmp, ho, hlt]⟩

/-- Claim C2 witness: the amended theorem applied to the concrete
environment where "m" is importable with version "1.2.0" and
`min_version = "1.1.0"`. -/
theorem c2_witness :
    (∃ o, looseCmp "1.2.0" "1.1.0" = Except.ok o) ∧
    (∃ r, safe_import envC2w "m" (some "1.1.0") = Except.ok r) :=
  c2_numeric_versions_compare_without_raising envC2w "m" "1.2.0" "1.1.0"
    rfl rfl (by decide) (by decide)

/-- Claim C3 counterexample: with matplotlib importable, a second invocation
of `_skip_if_no_mpl` with identical arguments executes `mod.use("Agg")`
again — the `use` call count goes from 1 to 2 — so the backend
reconfiguration IS repeated on invocations after the first. -/
theorem c3_cex_backend_call_repeats :
    _skip_if_no_mpl envMpl ⟨"TkAgg", 0⟩ = Except.ok (none, ⟨"Agg", 1⟩) ∧
    _skip_if_no_mpl envMpl ⟨"Agg", 1⟩ = Except.ok (none, ⟨"Agg", 2⟩) :=
  ⟨rfl, rfl⟩

/-- Claim C3 (amended): calling `_skip_if_no_mpl` twice with identical
arguments is idempotent in the returned value, and the backend configuration
is stable after the first invocation (the second call leaves the backend
exactly as the first call left it); however the `mod.use("Agg")` call itself
is re-executed on every invocation whose probe succeeds, not only on the
first. -/
theorem c3_idempotent_value_and_backend
    (env : Env) (st s1 : MplState) (r1 : Option Bool)
    (h : _skip_if_no_mpl env st = Except.ok (r1, s1)) :
    ∃ s2, _skip_if_no_mpl env s1 = Except.ok (r1, s2) ∧ s2.backend = s1.backend := by
  cases himp : env.importable "matplotlib" with
  | true =>
    have e1 : _skip_if_no_mpl env st = Except.ok (none, mplUse st "Agg") := by
      simp [_skip_if_no_mpl, safe_import, himp, truthySI]
    rw [e1] at h
    obtain ⟨rfl, rfl⟩ := Prod.ext_iff.mp (Except.ok.inj h)
    exact ⟨mplUse (mplUse st "Agg") "Agg",
      by simp [_skip_if_no_mpl, safe_import, himp, truthySI], rfl⟩
  | false =>
    have e1 : _skip_if_no_mpl env st = Except.ok (some true, st) := by
      simp [_skip_if_no_mpl, safe_import, himp, truthySI]
    rw [e1] at h
    obtain ⟨rfl, rfl⟩ := Prod.ext_iff.mp (Except.ok.inj h)
    exact ⟨st, e1, rfl⟩

/-- Claim C3 witness: the amended theorem applied to the concrete matplotlib
environment, after a first invocation from backend "TkAgg". -/
theorem c3_witness :
    ∃ s2, _skip_if_no_mpl envMpl ⟨"Agg", 1⟩ = Except.ok (none, s2) ∧
      s2.backend = "Agg" :=
  c3_idempotent_value_and_backend envMpl ⟨"TkAgg", 0⟩ ⟨"Agg", 1⟩ none rfl

/-- Claim C4 counterexample: with installed `__version__ = ""` and
`min_version = "."` (both parse to the empty component list, so the
installed version compares equal, hence greater-or-equal, to the minimum),
the probe nevertheless returns `False`: the `if version:` guard skips the
comparison for a falsy version string, so "returns the module handle if the
installed version compares greater-or-equal" fails as stated. -/
theorem c4_cex_empty_version_skips_comparison :
    looseCmp "" "." = Except.ok Ordering.eq ∧
    safe_import envC4 "m" (some ".") = Except.ok SIResult.false_ :=
  ⟨rfl, rfl⟩

/-- Claim C4 (amended): for every importable module whose `__version__` is a
NON-EMPTY string, and every truthy `min_version` for which the loose
comparison returns a result `o`, the probe returns the module handle when
`o` is not `lt` (installed >= minimum) and `False` when it is; in
particular, with installed "1.2.0", `min_version="1.1.0"` yields the module
handle and `min_version="1.3.0"` yields `False`. (An empty installed
version string yields `False` without any comparison, and a comparison that
raises propagates instead of returning.) -/
theorem c4_version_gate
    (env : Env) (name v m : String) (o : Ordering)
    (h1 : env.importable name = true)
    (h2 : env.version_attr name = some v)
    (hv : v.isEmpty = false)
    (hm : m.isEmpty = false)
    (hc : looseCmp v m = Except.ok o) :
    safe_import env name (some m) =
      Except.ok (if o = Ordering.lt then SIResult.false_
                 else SIResult.mod (topName name)) := by
  by_cases hlt : o = Ordering.lt
  · simp [safe_import, h1, h2, hv, hm, hc, hlt]
  · simp [safe_import, h1, h2, hv, hm, hc, hlt]

/-- Claim C4 witness: the amended theorem at installed version "1.2.0" with
`min_version = "1.1.0"`: the probe returns the module handle. -/
theorem c4_witness :
    safe_import envC4w "m" (some "1.1.0") = Except.ok (SIResult.mod "m") :=
  c4_version_gate envC4w "m" "1.2.0" "1.1.0" Ordering.gt rfl rfl rfl rfl rfl

/-- Claim C5: for a package that cannot be located the probe returns `False`
(falsy) without raising and the `skip_if_no` factory attaches a mark whose
condition is `true` (skip); for an importable package with no minimum
version the probe returns the module handle (truthy). -/
theorem c5_unavailable_skips_available_returns_module
    (env : Env) (name : String) (f : Nat) :
    (env.importable name = false →
      safe_import env name none = Except.ok SIResult.false_ ∧
      skip_if_no env name none f =
        Except.ok ⟨f, ⟨true, skip_if_no_msg name none⟩⟩) ∧
    (env.importable name = true →
      safe_import env name none = Except.ok (SIResult.mod (topName name)) ∧
      truthySI (SIResult.mod (topName name)) = true) := by
  constructor
  · intro h
    constructor
    · simp [safe_import, h]
    · simp [skip_if_no, decorated_func, safe_import, h, truthySI]
  · intro h
    exact ⟨by simp [safe_import, h], rfl⟩

/-- Claim C5 witness: in an environment where only "numpy" is importable,
the probe of "nosuchpkg" yields `False` and its skip mark has
condition `true`, while the probe of "numpy" yields the module handle. -/
theorem c5_witness :
    (safe_import envC5 "nosuchpkg" none = Except.ok SIResult.false_ ∧
     skip_if_no envC5 "nosuchpkg" none (0 : Nat) =
       Except.ok ⟨0, ⟨true, skip_if_no_msg "nosuchpkg" none⟩⟩) ∧
    safe_import envC5 "numpy" none = Except.ok (SIResult.mod "numpy") :=
  ⟨(c5_unavailable_skips_available_returns_module envC5 "nosuchpkg" 0).1 rfl,
   ((c5_unavailable_skips_available_returns_module envC5 "numpy" 0).2 rfl).1⟩

/-- Claim C6: the locale-set predicate skips exactly when a locale language
is present (Python `lang is not None`), and the not-US-locale predicate
skips exactly when the language differs from "en_US" (`None` differs). -/
theorem c6_locale_predicates (env : Env) :
    (_skip_if_has_locale env = some true ↔ env.locale_lang.isSome = true) ∧
    (_skip_if_not_us_locale env = some true ↔ env.locale_lang ≠ some "en_US") := by
  constructor
  · cases h : env.locale_lang <;> simp [_skip_if_has_locale, h]
  · by_cases h : env.locale_lang = some "en_US" <;>
      simp [_skip_if_not_us_locale, h]

/-- Claim C7: for every package and optional minimum version, `skip_if_no`
evaluates the probe at decoration time (the attached condition is the
already-computed boolean `not safe_import(...)`), builds a reason string
embedding the package name and — when a truthy minimum version is given —
the minimum version, and returns the wrapped function unchanged with only
the {condition, reason} mark added. -/
theorem c7_decorator_builds_mark {α : Type} (env : Env) (package : String)
    (min_version : Option String) (f : α) (r : SIResult)
    (h : safe_import env package min_version = Except.ok r) :
    skip_if_no env package min_version f =
      Except.ok ⟨f, ⟨!truthySI r, skip_if_no_msg package min_version⟩⟩ ∧
    (∃ a b, skip_if_no_msg package min_version = a ++ package ++ b) ∧
    (∀ m, min_version = some m → m.isEmpty = false →
      ∃ c, skip_if_no_msg package min_version = c ++ m) := by
  refine ⟨by simp [skip_if_no, decorated_func, h], ?_, ?_⟩
  · match min_version with
    | none => exact ⟨"Could not import " ++ squote, squote, rfl⟩
    | some m =>
      by_cases hme : m.isEmpty
      · exact ⟨"Could not import " ++ squote, squote,
          by simp [skip_if_no_msg, hme]⟩
      · refine ⟨"Could not import " ++ squote,
          squote ++ " satisfying a min_version of " ++ m, ?_⟩
        simp [skip_if_no_msg, hme, String.append_assoc]
  · intro m hm hme
    subst hm
    exact ⟨"Could not import " ++ squote ++ package ++ squote ++
      " satisfying a min_version of ", by simp [skip_if_no_msg, hme]⟩

/-- Claim C7 witness: decorating the test value `0` against package "scipy"
with `min_version="0.19"` in an environment carrying version "1.2.0": the
mark's condition is the probe's negation, the function part is unchanged. -/
theorem c7_witness :
    skip_if_no envC7 "scipy" (some "0.19") (0 : Nat) =
      Except.ok ⟨0, ⟨!truthySI (SIResult.mod "scipy"),
        skip_if_no_msg "scipy" (some "0.19")⟩⟩ :=
  (c7_decorator_builds_mark envC7 "scipy" (some "0.19") 0
    (SIResult.mod "scipy") rfl).1

/-- Claim C8: for an importable module, passing `min_version=""` (given but
falsy) performs no version check — `if not min_version` takes the same
branch as for `None` — and returns the module handle, identically to
omitting `min_version`. -/
theorem c8_empty_min_version_like_none (env : Env) (name : String)
    (h : env.importable name = true) :
    safe_import env name (some "") = Except.ok (SIResult.mod (topName name)) ∧
    safe_import env name (some "") = safe_import env name none := by
  have he : ("" : String).isEmpty = true := rfl
  exact ⟨by simp [safe_import, h, he], by simp [safe_import, h, he]⟩

/-- Claim C8 witness: probing "numpy" with the empty minimum version. -/
theorem c8_witness :
    safe_import envC8 "numpy" (some "") = Except.ok (SIResult.mod "numpy") ∧
    safe_import envC8 "numpy" (some "") = safe_import envC8 "numpy" none :=
  c8_empty_min_version_like_none envC8 "numpy" rfl

/-- Claim C9: for a dotted submodule name that imports, the probe's handle
is the TOP-LEVEL package (`__import__` returns it), which differs from the
dotted name; when a version check runs, the version is read from the
`sys.modules` entry of the full dotted name — changing the version
attribute of the top-level entry (the returned handle) never changes the
probe's result. -/
theorem c9_dotted_import_handle_and_version_source
    (env : Env) (name : String)
    (hdot : ('.') ∈ name.data)
    (himp : env.importable name = true) :
    (safe_import env name none = Except.ok (SIResult.mod (topName name)) ∧
      topName name ≠ name) ∧
    (∀ m v o, env.version_attr name = some v → m.isEmpty = false →
      v.isEmpty = false → looseCmp v m = Except.ok o →
      safe_import env name (some m) =
        Except.ok (if o = Ordering.lt then SIResult.false_
                   else SIResult.mod (topName name))) ∧
    (∀ minv w,
      safe_import
        { env with version_attr := fun s =>
            if s = topName name then w else env.version_attr s }
        name minv = safe_import env name minv) := by
  refine ⟨⟨by simp [safe_import, himp], topName_ne_of_dot name hdot⟩, ?_, ?_⟩
  · intro m v o h2 hm hv hc
    by_cases hlt : o = Ordering.lt
    · simp [safe_import, himp, h2, hm, hv, hc, hlt]
    · simp [safe_import, himp, h2, hm, hv, hc, hlt]
  · intro minv w
    have hne : ¬(name = topName name) :=
      fun h => topName_ne_of_dot name hdot h.symm
    cases minv with
    | none => simp [safe_import, himp]
    | some m =>
      by_cases hme : m.isEmpty
      · simp [safe_import, himp, hme]
      · simp [safe_import, himp, hme, hne]

/-- Claim C9 witness: with only "scipy.stats" importable, the probe returns
the top-level handle "scipy", which is not the dotted name. -/
theorem c9_witness :
    safe_import envC9 "scipy.stats" none = Except.ok (SIResult.mod "scipy") ∧
    topName "scipy.stats" ≠ "scipy.stats" :=
  (c9_dotted_import_handle_and_version_source envC9 "scipy.stats"
    (by decide) rfl).1

/-- Claim C10: each module-load-time skip predicate yields either `True` or
the implicit `None` (falsy for the test framework), never `False` — shown
here as: the returned value is `some true` or `none` (or, for
`_skip_if_mpl_1_5`, an exception propagates), in every environment and
state. -/
theorem c10_predicates_never_return_false (env : Env) (st : MplState) :
    ((_skip_if_no_mpl env st).map Prod.fst = Except.ok (some true) ∨
     (_skip_if_no_mpl env st).map Prod.fst = Except.ok none) ∧
    ((_skip_if_mpl_1_5 env st).map Prod.fst = Except.ok (some true) ∨
     (_skip_if_mpl_1_5 env st).map Prod.fst = Except.ok none ∨
     (∃ e, _skip_if_mpl_1_5 env st = Except.error e)) ∧
    (_skip_if_has_locale env = some true ∨ _skip_if_has_locale env = none) ∧
    (_skip_if_not_us_locale env = some true ∨
     _skip_if_not_us_locale env = none) := by
  refine ⟨?_, ?_, ?_, ?_⟩
  · cases himp : env.importable "matplotlib"
    · left; simp [_skip_if_no_mpl, safe_import, himp, truthySI, Except.map]
    · right; simp [_skip_if_no_mpl, safe_import, himp, truthySI, Except.map]
  · cases himp : env.importable "matplotlib"
    · right; left
      simp [_skip_if_mpl_1_5, safe_import, himp, truthySI, Except.map]
    · cases hva : env.version_attr "matplotlib" with
      | none =>
        right; right
        exact ⟨.attributeError,
          by simp [_skip_if_mpl_1_5, safe_import, himp, truthySI, hva]⟩
      | some v =>
        cases hcmp : looseCmp v "1.4.3" with
        | error e =>
          right; right
          exact ⟨e,
            by simp [_skip_if_mpl_1_5, safe_import, himp, truthySI, hva, hcmp]⟩
        | ok o =>
          by_cases hgt : o = Ordering.gt
          · left
            simp [_skip_if_mpl_1_5, safe_import, himp, truthySI, hva, hcmp,
              hgt, Except.map]
          · cases hd : v.data with
            | nil =>
              right; right
              exact ⟨.indexError,
                by simp [_skip_if_mpl_1_5, safe_import, himp, truthySI, hva,
                  hcmp, hgt, hd]⟩
            | cons c cs =>
              by_cases hc0 : c = '0'
              · left
                simp [_skip_if_mpl_1_5, safe_import, himp, truthySI, hva,
                  hcmp, hgt, hd, hc0, Except.map]
              · right; left
                simp [_skip_if_mpl_1_5, safe_import, himp, truthySI, hva,
                  hcmp, hgt, hd, hc0, Except.map]
  · cases hl : env.locale_lang
    · right; simp [_skip_if_has_locale, hl]
    · left; simp [_skip_if_has_locale, hl]
  · by_cases hl : env.locale_lang = some "en_US"
    · right; simp [_skip_if_not_us_locale, hl]
    · left; simp [_skip_if_not_us_locale, hl]
